import Mathlib

/-!
Shallow embedding of the keyword-research pipeline from
`scripts/keyword_research.py`, together with theorems settling the claims
about its scoring, caching, variation-generation, credential-decoding and
fallback behaviour.

Modelling conventions:
* a Python `str` is a `List Char`;
* Python `int` is `Int`, Python float arithmetic is modelled over `ℚ`
  (the claims settled here are bounds and exact small-integer values, on
  which the rational model and IEEE doubles agree);
* `dict.get` of a possibly-absent / possibly-`None` field is an `Option`;
* the on-disk cache directory is a function from derived keys to
  `Option CacheFile` (one "file" per key); the md5 digest of the key
  string is modelled by the key string itself (the digest is merely a
  deterministic injective-in-practice encoding of it);
* exceptions do not exist in the model: every fallible operation returns
  `Option`, and the `try/except` boundaries of the source become explicit
  case splits (`RemoteOutcome` for the remote HTTP call).
-/

namespace KeywordResearch

/-- Python whitespace characters (ASCII subset, the ones relevant here). -/
def pySpace (c : Char) : Bool :=
  c.toNat = 32 || c.toNat = 9 || c.toNat = 10 || c.toNat = 13 ||
  c.toNat = 11 || c.toNat = 12

/-- Python `str.strip()`: drop leading and trailing whitespace. -/
def pyStrip (s : List Char) : List Char :=
  ((s.dropWhile pySpace).reverse.dropWhile pySpace).reverse

/-- Python `str.lower()` (ASCII). -/
def pyLower (s : List Char) : List Char := s.map Char.toLower

/-- Python `str.upper()` (ASCII). -/
def pyUpper (s : List Char) : List Char := s.map Char.toUpper

/-- Auxiliary for `wordCount`: `inWord` records whether the previous
character was part of a word. -/
def wordCountAux : Bool → List Char → Nat
  | _, [] => 0
  | inWord, c :: rest =>
    if pySpace c then wordCountAux false rest
    else (if inWord then 0 else 1) + wordCountAux true rest

/-- `len(s.split())`: number of maximal runs of non-whitespace characters. -/
def wordCount (s : List Char) : Nat := wordCountAux false s

/-- Python `needle in hay` for strings: contiguous-substring test. -/
def isSubstr (n : List Char) : List Char → Bool
  | [] => n.isEmpty
  | c :: rest => n.isPrefixOf (c :: rest) || isSubstr n rest

/-- Python `int()` applied to a rational: truncation toward zero. -/
def pyTrunc (q : ℚ) : Int := if q < 0 then -(Rat.floor (-q)) else Rat.floor q

/-- Python 3 `round()` to an integer: round-half-to-even. -/
def pyRound (q : ℚ) : Int :=
  if q - Rat.floor q < 1/2 then Rat.floor q
  else if q - Rat.floor q > 1/2 then Rat.floor q + 1
  else if Rat.floor q % 2 = 0 then Rat.floor q else Rat.floor q + 1

/-- The `KeywordData` dataclass. -/
structure KeywordData where
  keyword : List Char
  search_volume : Int
  keyword_difficulty : Int
  related_keywords : List (List Char)
  relevance_score : ℚ
  deriving DecidableEq, Repr

/-- A raw per-keyword metric object from the remote API response.  A field
holds `none` when the key is absent or its value is `null` (Python's
`dict.get` returns `None` in both cases). -/
structure RawItem where
  keyword : Option (List Char) := none
  search_volume : Option Int := none
  competition : Option (List Char) := none
  competition_index : Option Int := none
  cpc : Option ℚ := none
  related_keywords : List (List Char) := []
  deriving DecidableEq, Repr

/-- `KeywordResearcher._calculate_difficulty`: prefer `competition_index`
verbatim; otherwise combine the upper-cased competition label
(`HIGH` 75 / `MEDIUM` 50 / `LOW` 25, default 50) with cpc:
`int(value*0.7 + min(cpc*5, 30))`, capped above at 100. -/
def calculate_difficulty (item : RawItem) : Int :=
  match item.competition_index with
  | some ci => ci
  | none =>
    let competition_str := pyUpper (item.competition.getD [])
    let cpc : ℚ := item.cpc.getD 0
    let competition_value : ℚ :=
      if competition_str = "HIGH".toList then 75
      else if competition_str = "MEDIUM".toList then 50
      else if competition_str = "LOW".toList then 25
      else 50
    let difficulty := pyTrunc (competition_value * (7/10) + min (cpc * 5) 30)
    min difficulty 100

/-- `KeywordResearcher._extract_related`: `item.get('related_keywords', [])[:5]`. -/
def extract_related (item : RawItem) : List (List Char) :=
  item.related_keywords.take 5

/-- `KeywordResearcher._calculate_relevance`: volume factor (30 max) plus
inverse-difficulty factor plus topic-match factor (40 max), capped at 100. -/
def calculate_relevance (item : RawItem) (original_topic : List Char) : ℚ :=
  let volume : Int := item.search_volume.getD 0
  let s1 : ℚ :=
    if volume > 10000 then 30
    else if volume > 1000 then 20
    else if volume > 100 then 10
    else 0
  let difficulty := calculate_difficulty item
  let s2 : ℚ := s1 + (100 - (difficulty : ℚ)) * (3/10)
  let keyword := pyLower (item.keyword.getD [])
  let topic_lower := pyLower original_topic
  let s3 : ℚ :=
    if keyword = topic_lower then s2 + 40
    else if isSubstr topic_lower keyword || isSubstr keyword topic_lower then s2 + 30
    else s2 + 10
  min s3 100

/-- `KeywordResearcher._generate_variations`: original topic, five prefixed
forms, five suffixed forms, two combined templates, truncated to 15. -/
def generate_variations (topic : List Char) : List (List Char) :=
  let prefixes := ["best", "how to", "what is", "guide to", "tips for"].map String.toList
  let suffixes := ["guide", "tips", "for beginners", "explained", "2024"].map String.toList
  let variations :=
    [topic]
      ++ prefixes.map (fun p => p ++ ' ' :: topic)
      ++ suffixes.map (fun s => topic ++ ' ' :: s)
      ++ ["best ".toList ++ topic ++ " tips".toList, "how to ".toList ++ topic]
  variations.take 15

/-- `KeywordResearcher._estimate_volume`: word-count buckets. -/
def estimate_volume (keyword : List Char) : Int :=
  let word_count := wordCount keyword
  if word_count ≤ 2 then 5000
  else if word_count = 3 then 2000
  else 800

/-- `KeywordResearcher._estimate_difficulty`: word-count buckets. -/
def estimate_difficulty (keyword : List Char) : Int :=
  let word_count := wordCount keyword
  if word_count ≥ 4 then 35
  else if word_count = 3 then 55
  else 70

/-- `KeywordResearcher._generate_related`: question formats plus an optional
comparison form, truncated to 5. -/
def generate_related (original : List Char) : List (List Char) :=
  let related :=
    ["what is ".toList ++ original, "how to ".toList ++ original,
     "why ".toList ++ original]
      ++ (if (' ' : Char) ∈ original then [original ++ " vs".toList] else [])
  related.take 5

/-- One iteration of the `for i, variation in enumerate(...)` loop of
`_fallback_research`, with `i` carried explicitly. -/
def fallback_aux (topic : List Char) : Nat → List (List Char) → List KeywordData
  | _, [] => []
  | i, v :: rest =>
    { keyword := v
      search_volume := estimate_volume v
      keyword_difficulty := estimate_difficulty v
      related_keywords := generate_related topic
      relevance_score := 100 - 10 * (i : ℚ) } :: fallback_aux topic (i + 1) rest

/-- `KeywordResearcher._fallback_research`: heuristic records for the first
`limit` variations, relevance decreasing by 10 per position. -/
def fallback_research (topic : List Char) (limit : Nat) : List KeywordData :=
  fallback_aux topic 0 ((generate_variations topic).take limit)

/-- The value of a task's `result` key: a JSON array, a single JSON object,
or anything else (`null`, absent, a scalar), which the `isinstance` chain of
`_parse_api_response` collapses to the empty list.  A `none` element of an
array stands for an item that is `None`, not a dict, or an empty dict — all
skipped by `if not item or not isinstance(item, dict): continue`. -/
inductive PyResult where
  | rlist (items : List (Option RawItem))
  | rdict (item : RawItem)
  | other
  deriving DecidableEq, Repr

/-- A task object of the remote response envelope. -/
structure ApiTask where
  status_code : Option Int := none
  result : PyResult := .other
  deriving DecidableEq, Repr

/-- The remote response envelope. -/
structure ApiResponse where
  status_code : Option Int := none
  tasks : List ApiTask := []
  deriving DecidableEq, Repr

/-- The `results` list extracted from a task by the `isinstance` chain. -/
def resultsOf : PyResult → List (Option RawItem)
  | .rlist items => items
  | .rdict item => [some item]
  | .other => []

/-- The `KeywordData` built from one raw item inside `_parse_api_response`. -/
def mkKeywordData (item : RawItem) (topic : List Char) : KeywordData :=
  { keyword := item.keyword.getD topic
    search_volume := item.search_volume.getD 0
    keyword_difficulty := calculate_difficulty item
    related_keywords := extract_related item
    relevance_score := calculate_relevance item topic }

/-- The task loop of `_parse_api_response`: skip tasks whose status is not
20000 or whose results are empty; process the first remaining task (the
loop body ends in `break`) and stop. -/
def parseTasks (topic : List Char) (limit : Nat) : List ApiTask → List KeywordData
  | [] => []
  | task :: rest =>
    if task.status_code ≠ some 20000 then parseTasks topic limit rest
    else
      let results := resultsOf task.result
      if results.isEmpty then parseTasks topic limit rest
      else (results.take limit).filterMap (Option.map (mkKeywordData · topic))

/-- `KeywordResearcher._parse_api_response`: extract records from the first
successful task and sort them by descending relevance (Python's stable
`list.sort` with `reverse=True`). -/
def parse_api_response (data : ApiResponse) (topic : List Char) (limit : Nat) :
    List KeywordData :=
  (parseTasks topic limit data.tasks).insertionSort
    (fun a b => b.relevance_score ≤ a.relevance_score)

/-- Outcome of the remote HTTP call in `_api_research`: either some
exception was raised before `_parse_api_response` returned (import error,
timeout, HTTP error, connection error, credential-format error, anything
else) or a decoded JSON envelope was obtained. -/
inductive RemoteOutcome where
  | failure
  | success (data : ApiResponse)
  deriving DecidableEq, Repr

/-- `KeywordResearcher._api_research`: every exception path falls back to
`_fallback_research`; a successfully parsed response is returned as is. -/
def api_research (outcome : RemoteOutcome) (topic : List Char) (limit : Nat) :
    List KeywordData :=
  match outcome with
  | .failure => fallback_research topic limit
  | .success data => parse_api_response data topic limit

/-- A parsed cache file: either a well-formed entry or one whose JSON fails
to load, lacks the `timestamp`/`keywords` keys, or has ill-shaped records
(every such read raises inside the `try` of `get_cached_keywords`). -/
inductive CacheFile where
  | valid (timestamp : Int) (topic : List Char) (limit : Nat)
      (keywords : List KeywordData)
  | corrupt
  deriving DecidableEq, Repr

/-- The cache directory: one optional file per derived key.  Timestamps are
measured in days. -/
def Store : Type := List Char × Nat → Option CacheFile

/-- `_get_cache_key`: the md5 digest of `f"{topic.lower().strip()}_{limit}"`,
modelled by its deterministic pre-image `(topic.lower().strip(), limit)`. -/
def cacheKey (topic : List Char) (limit : Nat) : List Char × Nat :=
  (pyStrip (pyLower topic), limit)

/-- Point update of a store (file write or deletion). -/
def updateStore (st : Store) (k : List Char × Nat) (v : Option CacheFile) :
    Store :=
  fun k2 => if k2 = k then v else st k2

/-- `CACHE_TTL_DAYS`. -/
def CACHE_TTL_DAYS : Int := 30

/-- `get_cached_keywords`, with the current time `now` (days) explicit.
Returns the cached records (or `none` on a miss) together with the cache
directory after the call: a valid entry older than `CACHE_TTL_DAYS` is
unlinked; any read/parse failure is caught, yielding a miss with the file
left in place. -/
def get_cached_keywords (now : Int) (st : Store) (topic : List Char)
    (limit : Nat) : Option (List KeywordData) × Store :=
  let key := cacheKey topic limit
  match st key with
  | none => (none, st)
  | some .corrupt => (none, st)
  | some (.valid ts _ _ kws) =>
    if now - ts > CACHE_TTL_DAYS then (none, updateStore st key none)
    else (some kws, st)

/-- `save_keywords_to_cache`: write a fresh entry under the derived key. -/
def save_keywords_to_cache (now : Int) (st : Store) (topic : List Char)
    (limit : Nat) (keywords : List KeywordData) : Store :=
  updateStore st (cacheKey topic limit)
    (some (.valid now topic limit keywords))

/-- `KeywordResearcher.research_keywords`: try the cache (Python truthiness:
`None` and the empty list both miss), fetch fresh data from the API or the
heuristic fallback, and cache the result only when it is non-empty. -/
def research_keywords (now : Int) (st : Store) (outcome : RemoteOutcome)
    (api_available : Bool) (topic : List Char) (limit : Nat) :
    List KeywordData × Store :=
  let res := get_cached_keywords now st topic limit
  match res.1 with
  | some (kw :: kws) => (kw :: kws, res.2)
  | _ =>
    let keywords :=
      if api_available then api_research outcome topic limit
      else fallback_research topic limit
    if keywords.isEmpty then (keywords, res.2)
    else (keywords, save_keywords_to_cache now res.2 topic limit keywords)

/-- Value of a character in the Base64 alphabet. -/
def b64val (c : Char) : Option Nat :=
  if 65 ≤ c.toNat ∧ c.toNat ≤ 90 then some (c.toNat - 65)
  else if 97 ≤ c.toNat ∧ c.toNat ≤ 122 then some (c.toNat - 97 + 26)
  else if 48 ≤ c.toNat ∧ c.toNat ≤ 57 then some (c.toNat - 48 + 52)
  else if c = '+' then some 62
  else if c = '/' then some 63
  else none

/-- Decode complete Base64 quads into bytes. -/
def b64quads : List Nat → List Nat
  | v1 :: v2 :: v3 :: v4 :: rest =>
    (v1 * 4 + v2 / 16) :: (v2 % 16 * 16 + v3 / 4) :: (v3 % 4 * 64 + v4)
      :: b64quads rest
  | _ => []

/-- `base64.b64decode(s, validate=True)` on a string already split as
`dataVals` (the 6-bit values of the leading alphabet characters) and
`padCount` trailing `=` characters, as accepted by CPython's validation
regex `[A-Za-z0-9+/]*={0,2}`:
* a multiple-of-four run of data characters decodes to full 3-byte groups
  (trailing padding is ignored, but padding with no data at all is an
  error);
* a final group of 3 data characters requires exactly one `=` and yields
  2 bytes; a final group of 2 requires `==` and yields 1 byte;
* everything else (incorrect padding) is an error. -/
def b64decodeVals (dataVals : List Nat) (padCount : Nat) : Option (List Nat) :=
  let d := dataVals.length
  if d % 4 = 0 then
    if d = 0 ∧ padCount ≠ 0 then none else some (b64quads dataVals)
  else if d % 4 = 3 ∧ padCount = 1 then
    let main := b64quads (dataVals.take (d - 3))
    match dataVals.drop (d - 3) with
    | [v1, v2, v3] => some (main ++ [v1 * 4 + v2 / 16, v2 % 16 * 16 + v3 / 4])
    | _ => none
  else if d % 4 = 2 ∧ padCount = 2 then
    let main := b64quads (dataVals.take (d - 2))
    match dataVals.drop (d - 2) with
    | [v1, v2] => some (main ++ [v1 * 4 + v2 / 16])
    | _ => none
  else none

/-- `base64.b64decode(s, validate=True)` on a string: split it as alphabet
characters followed by at most two `=`, then decode; any other shape
(a non-alphabet character, too much or misplaced padding) raises, i.e.
yields `none`. -/
def b64decodeStr (s : List Char) : Option (List Nat) :=
  let dataChars := s.takeWhile (fun c => (b64val c).isSome)
  let rest := s.dropWhile (fun c => (b64val c).isSome)
  if rest = [] then b64decodeVals (dataChars.filterMap b64val) 0
  else if rest = ['='] then b64decodeVals (dataChars.filterMap b64val) 1
  else if rest = ['=', '='] then b64decodeVals (dataChars.filterMap b64val) 2
  else none

/-- Strict UTF-8 decoding of a byte list into unicode code points
(`bytes.decode('utf-8')`), rejecting ill-formed sequences, overlong
encodings, surrogates and out-of-range code points. -/
def utf8Decode : List Nat → Option (List Nat)
  | [] => some []
  | b :: rest =>
    if b < 128 then (utf8Decode rest).map (b :: ·)
    else if b < 192 then none
    else if b < 224 then
      match rest with
      | c1 :: rest2 =>
        if 128 ≤ c1 ∧ c1 < 192 then
          let cp := (b - 192) * 64 + (c1 - 128)
          if cp < 128 then none else (utf8Decode rest2).map (cp :: ·)
        else none
      | _ => none
    else if b < 240 then
      match rest with
      | c1 :: c2 :: rest2 =>
        if (128 ≤ c1 ∧ c1 < 192) ∧ (128 ≤ c2 ∧ c2 < 192) then
          let cp := (b - 224) * 4096 + (c1 - 128) * 64 + (c2 - 128)
          if cp < 2048 ∨ (55296 ≤ cp ∧ cp ≤ 57343) then none
          else (utf8Decode rest2).map (cp :: ·)
        else none
      | _ => none
    else if b < 245 then
      match rest with
      | c1 :: c2 :: c3 :: rest2 =>
        if (128 ≤ c1 ∧ c1 < 192) ∧ (128 ≤ c2 ∧ c2 < 192) ∧
            (128 ≤ c3 ∧ c3 < 192) then
          let cp := (b - 240) * 262144 + (c1 - 128) * 4096 +
            (c2 - 128) * 64 + (c3 - 128)
          if cp < 65536 ∨ cp > 1114111 then none
          else (utf8Decode rest2).map (cp :: ·)
        else none
      | _ => none
    else none

/-- `base64.b64decode(s, validate=True).decode('utf-8')` as one step,
returning the decoded text as characters. -/
def b64utf8Decode (s : List Char) : Option (List Char) :=
  (b64decodeStr s >>= utf8Decode).map (List.map Char.ofNat)

/-- `decode_base64_credentials`: empty or whitespace-only input yields
`None`; otherwise the stripped input is Base64+UTF-8 decoded, the decoded
text being returned whether or not it contains `:` (both branches of the
source return `decoded`), and any decoding exception is swallowed,
returning the stripped input itself. -/
def decode_base64_credentials (encoded : List Char) : Option (List Char) :=
  if pyStrip encoded = [] then none
  else
    let e := pyStrip encoded
    match b64utf8Decode e with
    | some decoded => some decoded
    | none => some e

/-- The difficulty computation exactly as claim C2 words it: competition
index verbatim when present; labels `HIGH` 75, `MEDIUM` 50, `LOW` 50,
default 50; `round(value*0.7 + min(cpc*5, 30))` clamped to `[0, 100]`. -/
def difficultyClaimC2 (item : RawItem) : Int :=
  match item.competition_index with
  | some ci => ci
  | none =>
    let label := pyUpper (item.competition.getD [])
    let value : ℚ :=
      if label = "HIGH".toList then 75
      else if label = "MEDIUM".toList then 50
      else if label = "LOW".toList then 50
      else 50
    let cpc : ℚ := item.cpc.getD 0
    max 0 (min (pyRound (value * (7/10) + min (cpc * 5) 30)) 100)

/-- The amended difficulty computation: competition index verbatim when
present; labels `HIGH` 75, `MEDIUM` 50, `LOW` 25, default 50 (a dict
lookup); `int(value*0.7 + min(cpc*5, 30))` — truncation, not rounding —
capped above at 100 with no lower clamp. -/
def difficultyAmendedC2 (item : RawItem) : Int :=
  match item.competition_index with
  | some ci => ci
  | none =>
    let table : List (List Char × ℚ) :=
      [("HIGH".toList, 75), ("MEDIUM".toList, 50), ("LOW".toList, 25)]
    let value : ℚ :=
      ((table.lookup (pyUpper (item.competition.getD []))).getD 50)
    min (pyTrunc (value * (7/10) + min (item.cpc.getD 0 * 5) 30)) 100

/-! ### Helper lemmas -/

theorem ratFloor_eq_intFloor (q : ℚ) : Rat.floor q = ⌊q⌋ := by
  rw [Rat.floor_def', Rat.floor_def]

theorem pyTrunc_of_nonneg {q : ℚ} (h : 0 ≤ q) : pyTrunc q = ⌊q⌋ := by
  rw [pyTrunc, if_neg (not_lt.mpr h), ratFloor_eq_intFloor]

theorem pyTrunc_nonneg {q : ℚ} (h : 0 ≤ q) : 0 ≤ pyTrunc q := by
  rw [pyTrunc_of_nonneg h]; exact Int.floor_nonneg.mpr h

theorem pyTrunc_le_of_le {q : ℚ} {n : ℤ} (h0 : 0 ≤ q) (h : q ≤ (n : ℚ)) :
    pyTrunc q ≤ n := by
  rw [pyTrunc_of_nonneg h0]
  exact (Int.floor_le_floor h).trans_eq (Int.floor_intCast n)

/-- The scorer's difficulty stays in `[0, 100]` on the label/cpc path. -/
theorem calculate_difficulty_bounds (item : RawItem)
    (hidx : item.competition_index = none) (hcpc : 0 ≤ item.cpc.getD 0) :
    0 ≤ calculate_difficulty item ∧ calculate_difficulty item ≤ 100 := by
  rw [calculate_difficulty, hidx]
  set cv : ℚ :=
    if pyUpper (item.competition.getD []) = "HIGH".toList then (75 : ℚ)
    else if pyUpper (item.competition.getD []) = "MEDIUM".toList then 50
    else if pyUpper (item.competition.getD []) = "LOW".toList then 25
    else 50 with hcv
  have hcv_lb : (25 : ℚ) ≤ cv := by rw [hcv]; split_ifs <;> norm_num
  have hcv_ub : cv ≤ 75 := by rw [hcv]; split_ifs <;> norm_num
  have hmin_lb : (0 : ℚ) ≤ min (item.cpc.getD 0 * 5) 30 :=
    le_min (by positivity) (by norm_num)
  have hmin_ub : min (item.cpc.getD 0 * 5) 30 ≤ 30 := min_le_right _ _
  have hq0 : (0 : ℚ) ≤ cv * (7 / 10) + min (item.cpc.getD 0 * 5) 30 := by
    nlinarith
  have hq1 : cv * (7 / 10) + min (item.cpc.getD 0 * 5) 30 ≤ ((100 : ℤ) : ℚ) := by
    push_cast; nlinarith
  constructor
  · exact le_min (pyTrunc_nonneg hq0) (by norm_num)
  · exact min_le_right _ _

/-! ### Claim theorems -/

/-- C7: for every topic, the variation generator returns exactly the
original topic, the five prefixed forms, the five suffixed forms and the
two combined templates, in that order, and the list stays within the
15-element bound. -/
theorem C7_variation_order (topic : List Char) :
    generate_variations topic =
      [topic,
       "best ".toList ++ topic, "how to ".toList ++ topic,
       "what is ".toList ++ topic, "guide to ".toList ++ topic,
       "tips for ".toList ++ topic,
       topic ++ " guide".toList, topic ++ " tips".toList,
       topic ++ " for beginners".toList, topic ++ " explained".toList,
       topic ++ " 2024".toList,
       "best ".toList ++ topic ++ " tips".toList,
       "how to ".toList ++ topic] ∧
    (generate_variations topic).length ≤ 15 := by
  refine ⟨rfl, ?_⟩
  simp [generate_variations]

/-- C5: the heuristic estimators follow the word-count table (volume 5000 /
difficulty 70 for at most two words, 2000 / 55 for exactly three, 800 / 35
for four or more), and with topic `keyword` and limit 5 the fallback path
returns exactly 5 records whose first has keyword `keyword`, volume 5000,
difficulty 70 and relevance 100. -/
theorem C5_heuristic_table :
    (∀ kw : List Char,
      (wordCount kw ≤ 2 →
        estimate_volume kw = 5000 ∧ estimate_difficulty kw = 70) ∧
      (wordCount kw = 3 →
        estimate_volume kw = 2000 ∧ estimate_difficulty kw = 55) ∧
      (4 ≤ wordCount kw →
        estimate_volume kw = 800 ∧ estimate_difficulty kw = 35)) ∧
    (fallback_research "keyword".toList 5).length = 5 ∧
    (fallback_research "keyword".toList 5).head? = some
      { keyword := "keyword".toList
        search_volume := 5000
        keyword_difficulty := 70
        related_keywords := ["what is keyword".toList, "how to keyword".toList,
          "why keyword".toList]
        relevance_score := 100 } := by
  refine ⟨fun kw => ⟨fun h => ?_, fun h => ?_, fun h => ?_⟩, by decide, ?_⟩
  · rw [estimate_volume, estimate_difficulty]
    rw [if_pos h, if_neg (by omega), if_neg (by omega)]
    exact ⟨rfl, rfl⟩
  · rw [estimate_volume, estimate_difficulty]
    rw [if_neg (by omega), if_pos h, if_neg (by omega), if_pos h]
    exact ⟨rfl, rfl⟩
  · rw [estimate_volume, estimate_difficulty]
    rw [if_neg (by omega), if_neg (by omega), if_pos h]
    exact ⟨rfl, rfl⟩
  · have hrest :
        (fallback_research "keyword".toList 5).head? =
          some
            { keyword := "keyword".toList
              search_volume := estimate_volume "keyword".toList
              keyword_difficulty := estimate_difficulty "keyword".toList
              related_keywords := generate_related "keyword".toList
              relevance_score := 100 - 10 * ((0 : Nat) : ℚ) } := rfl
    rw [hrest]
    have h1 : estimate_volume "keyword".toList = 5000 := by decide
    have h2 : estimate_difficulty "keyword".toList = 70 := by decide
    have h3 : generate_related "keyword".toList =
        ["what is keyword".toList, "how to keyword".toList,
         "why keyword".toList] := by decide
    rw [h1, h2, h3]
    norm_num

/-- C9: with no competition index present and a nonnegative cost-per-click
(including absent cpc, read as 0), the computed difficulty always lies in
`[0, 100]`, whatever the competition label (`HIGH`, `MEDIUM`, `LOW`,
unknown or absent). -/
theorem C9_difficulty_in_range (item : RawItem)
    (hidx : item.competition_index = none) (hcpc : 0 ≤ item.cpc.getD 0) :
    0 ≤ calculate_difficulty item ∧ calculate_difficulty item ≤ 100 :=
  calculate_difficulty_bounds item hidx hcpc

/-- Witness for C9 at a concrete item: label `LOW`, cpc absent. -/
theorem C9_witness :
    0 ≤ calculate_difficulty { competition := some "LOW".toList } ∧
      calculate_difficulty { competition := some "LOW".toList } ≤ 100 :=
  C9_difficulty_in_range { competition := some "LOW".toList } rfl (le_refl 0)

/-- C2, counterexample: on an item carrying only the label `LOW` (no
competition index, no cpc) the code computes `int(25*0.7 + 0) = 17`,
while the claim's formula (`LOW` mapped to 50, rounded) predicts 35. -/
theorem C2_counterexample :
    calculate_difficulty { competition := some "LOW".toList } ≠
      difficultyClaimC2 { competition := some "LOW".toList } := by
  have hfloor : ⌊(35 / 2 : ℚ)⌋ = (17 : ℤ) := by
    rw [Int.floor_eq_iff]; norm_num
  have hfloor35 : ⌊(35 : ℚ)⌋ = (35 : ℤ) := by
    rw [Int.floor_eq_iff]; norm_num
  have e1 : pyUpper ((some "LOW".toList).getD []) = "LOW".toList := by decide
  have h1 : calculate_difficulty { competition := some "LOW".toList } = 17 := by
    rw [calculate_difficulty]
    simp only [e1, Option.getD_none]
    rw [if_neg (by decide), if_neg (by decide), if_pos trivial]
    have harg : (25 : ℚ) * (7 / 10) + min ((0 : ℚ) * 5) 30 = 35 / 2 := by
      rw [min_eq_left (by norm_num)]; norm_num
    rw [harg, pyTrunc_of_nonneg (by norm_num), hfloor]
    norm_num
  have h2 : difficultyClaimC2 { competition := some "LOW".toList } = 35 := by
    rw [difficultyClaimC2]
    simp only [e1, Option.getD_none]
    rw [if_neg (by decide), if_neg (by decide), if_pos trivial]
    have harg : (50 : ℚ) * (7 / 10) + min ((0 : ℚ) * 5) 30 = 35 := by
      rw [min_eq_left (by norm_num)]; norm_num
    rw [harg, pyRound, ratFloor_eq_intFloor, hfloor35]
    norm_num
  rw [h1, h2]; decide

/-- C2, amended: difficulty is the competition index verbatim when present;
otherwise the label maps `HIGH` to 75, `MEDIUM` to 50, `LOW` to 25 and
anything unknown or absent to 50, combined as
`int(value*0.7 + min(cpc*5, 30))` — truncation, not rounding — and capped
above at 100 with no lower clamp. -/
theorem lookupTable_high :
    (List.lookup "HIGH".toList [("HIGH".toList, (75 : ℚ)),
      ("MEDIUM".toList, 50), ("LOW".toList, 25)]).getD 50 = 75 := by decide

theorem lookupTable_medium :
    (List.lookup "MEDIUM".toList [("HIGH".toList, (75 : ℚ)),
      ("MEDIUM".toList, 50), ("LOW".toList, 25)]).getD 50 = 50 := by decide

theorem lookupTable_low :
    (List.lookup "LOW".toList [("HIGH".toList, (75 : ℚ)),
      ("MEDIUM".toList, 50), ("LOW".toList, 25)]).getD 50 = 25 := by decide

theorem lookupTable_of_unknown {s : List Char} (h1 : s ≠ "HIGH".toList)
    (h2 : s ≠ "MEDIUM".toList) (h3 : s ≠ "LOW".toList) :
    (List.lookup s [("HIGH".toList, (75 : ℚ)),
      ("MEDIUM".toList, 50), ("LOW".toList, 25)]).getD 50 = 50 := by
  simp only [List.lookup, beq_false_of_ne h1, beq_false_of_ne h2,
    beq_false_of_ne h3, Option.getD_none]

theorem C2_difficulty_formula (item : RawItem) :
    calculate_difficulty item = difficultyAmendedC2 item := by
  simp only [calculate_difficulty, difficultyAmendedC2]
  cases hidx : item.competition_index with
  | some ci => rfl
  | none =>
    dsimp only
    by_cases h1 : pyUpper (item.competition.getD []) = "HIGH".toList
    · rw [h1, if_pos rfl, lookupTable_high]
    · rw [if_neg h1]
      by_cases h2 : pyUpper (item.competition.getD []) = "MEDIUM".toList
      · rw [h2, if_pos rfl, lookupTable_medium]
      · rw [if_neg h2]
        by_cases h3 : pyUpper (item.competition.getD []) = "LOW".toList
        · rw [h3, if_pos rfl, lookupTable_low]
        · rw [if_neg h3, lookupTable_of_unknown h1 h2 h3]

/-- Witness for C5: the three word-count buckets at concrete keywords. -/
theorem C5_witness :
    (estimate_volume "hi".toList = 5000 ∧ estimate_difficulty "hi".toList = 70) ∧
    (estimate_volume "a b c".toList = 2000 ∧
      estimate_difficulty "a b c".toList = 55) ∧
    (estimate_volume "a b c d".toList = 800 ∧
      estimate_difficulty "a b c d".toList = 35) :=
  ⟨(C5_heuristic_table.1 "hi".toList).1 (by decide),
   (C5_heuristic_table.1 "a b c".toList).2.1 (by decide),
   (C5_heuristic_table.1 "a b c d".toList).2.2 (by decide)⟩

/-- The relevance of the fallback record at position `j`, when the
enumeration starts at `i0`, is `100 - 10*(i0 + j)`. -/
theorem fallback_aux_relevance (topic : List Char) :
    ∀ (vs : List (List Char)) (i0 j : Nat)
      (h : j < (fallback_aux topic i0 vs).length),
      ((fallback_aux topic i0 vs).get ⟨j, h⟩).relevance_score =
        100 - 10 * ((i0 + j : Nat) : ℚ) := by
  intro vs
  induction vs with
  | nil => intro i0 j h; simp [fallback_aux] at h
  | cons v rest ih =>
    intro i0 j h
    cases j with
    | zero => simp [fallback_aux]
    | succ j2 =>
      have hlen : j2 < (fallback_aux topic (i0 + 1) rest).length := by
        simpa [fallback_aux] using h
      have hstep :
          ((fallback_aux topic i0 (v :: rest)).get ⟨j2 + 1, h⟩).relevance_score =
            ((fallback_aux topic (i0 + 1) rest).get ⟨j2, hlen⟩).relevance_score := by
        rfl
      rw [hstep, ih (i0 + 1) j2 hlen]
      push_cast
      ring

/-- The scorer's relevance stays in `[0, 100]` as soon as the difficulty it
reads does. -/
theorem calculate_relevance_bounds (item : RawItem) (topic : List Char)
    (h0 : 0 ≤ calculate_difficulty item)
    (h1 : calculate_difficulty item ≤ 100) :
    0 ≤ calculate_relevance item topic ∧
      calculate_relevance item topic ≤ 100 := by
  rw [calculate_relevance]
  have hd0 : (0 : ℚ) ≤ (calculate_difficulty item : ℚ) := by exact_mod_cast h0
  have hd1 : ((calculate_difficulty item : ℚ)) ≤ 100 := by exact_mod_cast h1
  refine ⟨le_min ?_ (by norm_num), min_le_right _ _⟩
  split_ifs <;> nlinarith

/-- An exact case-insensitive topic match with volume above 10000 and
difficulty below 50 scores strictly above 80. -/
theorem calculate_relevance_exact_match (item : RawItem) (topic : List Char)
    (hkw : pyLower (item.keyword.getD []) = pyLower topic)
    (hvol : 10000 < item.search_volume.getD 0)
    (hdiff : calculate_difficulty item < 50) :
    80 < calculate_relevance item topic := by
  rw [calculate_relevance]
  have hd : ((calculate_difficulty item : ℚ)) ≤ 49 := by
    have : calculate_difficulty item ≤ 49 := by omega
    exact_mod_cast this
  rw [if_pos hvol, if_pos hkw]
  refine lt_min ?_ (by norm_num)
  nlinarith

/-- C4, counterexample: with topic `x` and limit 12 the heuristic fallback
produces a record at position 11 whose relevance is `100 - 110 = -10`,
outside `[0, 100]`. -/
theorem C4_counterexample :
    ((fallback_research "x".toList 12).map fun k => k.relevance_score) =
      [100, 90, 80, 70, 60, 50, 40, 30, 20, 10, 0, -10] ∧
    ¬ (0 : ℚ) ≤ -10 := by
  constructor
  · norm_num [fallback_research, generate_variations, fallback_aux]
  · norm_num

/-- C4, amended: records built by the API-response scorer have relevance in
`[0, 100]` whenever the difficulty they read lies in `[0, 100]`; the
heuristic fallback record at position `j` has relevance exactly
`100 - 10*j`, inside `[0, 100]` when `j ≤ 10` (later positions go
negative); and an exact case-insensitive topic match with volume above
10000 and difficulty below 50 always scores above 80. -/
theorem C4_relevance_range :
    (∀ (item : RawItem) (topic : List Char),
      0 ≤ calculate_difficulty item → calculate_difficulty item ≤ 100 →
        0 ≤ calculate_relevance item topic ∧
          calculate_relevance item topic ≤ 100) ∧
    (∀ (topic : List Char) (limit j : Nat)
        (h : j < (fallback_research topic limit).length),
      ((fallback_research topic limit).get ⟨j, h⟩).relevance_score =
          100 - 10 * (j : ℚ) ∧
        (j ≤ 10 →
          0 ≤ ((fallback_research topic limit).get ⟨j, h⟩).relevance_score ∧
            ((fallback_research topic limit).get ⟨j, h⟩).relevance_score ≤ 100)) ∧
    (∀ (item : RawItem) (topic : List Char),
      pyLower (item.keyword.getD []) = pyLower topic →
      10000 < item.search_volume.getD 0 →
      calculate_difficulty item < 50 →
      80 < calculate_relevance item topic) := by
  refine ⟨calculate_relevance_bounds, ?_, calculate_relevance_exact_match⟩
  intro topic limit j h
  have hval := fallback_aux_relevance topic ((generate_variations topic).take limit) 0 j h
  rw [Nat.zero_add] at hval
  refine ⟨hval, fun hj => ?_⟩
  have hval2 : ((fallback_research topic limit).get ⟨j, h⟩).relevance_score =
      100 - 10 * (j : ℚ) := hval
  rw [hval2]
  have hq : ((j : ℚ)) ≤ 10 := by exact_mod_cast hj
  constructor <;> nlinarith

/-- Witness for C4 at concrete inputs: an item with competition index 40,
volume 20000 and keyword equal to the topic, and the first fallback
record. -/
theorem C4_witness :
    (0 ≤ calculate_relevance
        { keyword := some "x".toList, search_volume := some 20000,
          competition_index := some 40 } "x".toList ∧
      calculate_relevance
        { keyword := some "x".toList, search_volume := some 20000,
          competition_index := some 40 } "x".toList ≤ 100) ∧
    (((fallback_research "x".toList 5).get
        ⟨0, by decide⟩).relevance_score = 100 - 10 * ((0 : Nat) : ℚ) ∧
      (0 ≤ 10 →
        0 ≤ ((fallback_research "x".toList 5).get
            ⟨0, by decide⟩).relevance_score ∧
          ((fallback_research "x".toList 5).get
            ⟨0, by decide⟩).relevance_score ≤ 100)) ∧
    80 < calculate_relevance
        { keyword := some "x".toList, search_volume := some 20000,
          competition_index := some 40 } "x".toList :=
  ⟨C4_relevance_range.1 _ "x".toList (by decide) (by decide),
   C4_relevance_range.2.1 "x".toList 5 0 (by decide),
   C4_relevance_range.2.2 _ "x".toList (by decide) (by decide) (by decide)⟩

/-- C3, counterexample: a corrupt cache file makes `get` report a miss but
the file is left in place, not deleted. -/
theorem C3_counterexample :
    (get_cached_keywords 0
        (fun k => if k = cacheKey "topic".toList 5 then some CacheFile.corrupt
          else none)
        "topic".toList 5).1 = none ∧
    (get_cached_keywords 0
        (fun k => if k = cacheKey "topic".toList 5 then some CacheFile.corrupt
          else none)
        "topic".toList 5).2 (cacheKey "topic".toList 5) =
      some CacheFile.corrupt := by
  exact ⟨rfl, rfl⟩

/-- C3, amended: a cache read hitting a corrupt file returns a miss and
leaves the cache directory unchanged (the corrupt file is not deleted;
only expired valid entries are). -/
theorem C3_corrupt_read_is_miss (now : Int) (st : Store) (topic : List Char)
    (limit : Nat) (h : st (cacheKey topic limit) = some CacheFile.corrupt) :
    get_cached_keywords now st topic limit = (none, st) := by
  simp only [get_cached_keywords, h]

/-- Witness for C3 at a concrete corrupt store. -/
theorem C3_witness :
    get_cached_keywords 7
      (fun k => if k = cacheKey "t".toList 3 then some CacheFile.corrupt
        else none)
      "t".toList 3 =
      (none, fun k => if k = cacheKey "t".toList 3 then some CacheFile.corrupt
        else none) :=
  C3_corrupt_read_is_miss 7 _ "t".toList 3 (by simp)

/-- C6: a `put` followed by a `get` under the same (topic, limit) within 30
days returns the stored records; once the entry is more than 30 days old
the `get` misses and deletes the cache file. -/
theorem C6_cache_roundtrip (st : Store) (topic : List Char) (limit : Nat)
    (keywords : List KeywordData) (tput tget : Int) :
    (tget - tput ≤ 30 →
      (get_cached_keywords tget
          (save_keywords_to_cache tput st topic limit keywords)
          topic limit).1 = some keywords) ∧
    (30 < tget - tput →
      get_cached_keywords tget
          (save_keywords_to_cache tput st topic limit keywords) topic limit =
        (none,
          updateStore (save_keywords_to_cache tput st topic limit keywords)
            (cacheKey topic limit) none)) := by
  have hkey :
      save_keywords_to_cache tput st topic limit keywords
          (cacheKey topic limit) =
        some (CacheFile.valid tput topic limit keywords) := by
    simp [save_keywords_to_cache, updateStore]
  constructor
  · intro h
    simp only [get_cached_keywords, hkey, CACHE_TTL_DAYS]
    rw [if_neg (by omega)]
  · intro h
    simp only [get_cached_keywords, hkey, CACHE_TTL_DAYS]
    rw [if_pos (by omega)]

/-- Witness for C6: a fresh read 10 days after the write hits; a read 41
days after the write misses and deletes. -/
theorem C6_witness :
    ((get_cached_keywords 10
        (save_keywords_to_cache 0 (fun _ => none) "t".toList 2 [])
        "t".toList 2).1 = some []) ∧
    (get_cached_keywords 41
        (save_keywords_to_cache 0 (fun _ => none) "t".toList 2 [])
        "t".toList 2 =
      (none,
        updateStore (save_keywords_to_cache 0 (fun _ => none) "t".toList 2 [])
          (cacheKey "t".toList 2) none)) :=
  ⟨(C6_cache_roundtrip (fun _ => none) "t".toList 2 [] 0 10).1 (by decide),
   (C6_cache_roundtrip (fun _ => none) "t".toList 2 [] 0 41).2 (by decide)⟩

/-- A cache read never adds entries: afterwards every key holds either its
old file or nothing (expired entries are deleted, nothing is written). -/
theorem get_cached_store_sub (now : Int) (st : Store) (topic : List Char)
    (limit : Nat) (k : List Char × Nat) :
    (get_cached_keywords now st topic limit).2 k = st k ∨
      (get_cached_keywords now st topic limit).2 k = none := by
  rw [get_cached_keywords]
  cases hst : st (cacheKey topic limit) with
  | none => exact Or.inl rfl
  | some f =>
    cases f with
    | corrupt => exact Or.inl rfl
    | valid ts t0 l0 kws =>
      by_cases hexp : now - ts > CACHE_TTL_DAYS
      · by_cases hk : k = cacheKey topic limit
        · exact Or.inr (by simp [hexp, updateStore, hk])
        · exact Or.inl (by simp [hexp, updateStore, hk])
      · exact Or.inl (by simp [hexp])

/-- The store after `research_keywords`, at any key, is either the store
left by the cache read or the freshly written non-empty result. -/
theorem research_store_sub (now : Int) (st : Store) (outcome : RemoteOutcome)
    (avail : Bool) (topic : List Char) (limit : Nat) (k : List Char × Nat) :
    (research_keywords now st outcome avail topic limit).2 k =
        (get_cached_keywords now st topic limit).2 k ∨
      ((research_keywords now st outcome avail topic limit).2 k =
          some (CacheFile.valid now topic limit
            (if avail then api_research outcome topic limit
              else fallback_research topic limit)) ∧
        (if avail then api_research outcome topic limit
          else fallback_research topic limit) ≠ []) := by
  rw [research_keywords]
  cases hc : (get_cached_keywords now st topic limit).1 with
  | some cached =>
    cases cached with
    | cons kw kws2 => exact Or.inl rfl
    | nil =>
      by_cases hke :
        (if avail then api_research outcome topic limit
          else fallback_research topic limit).isEmpty = true
      · rw [if_pos hke]
        exact Or.inl rfl
      · rw [if_neg hke]
        by_cases hk2 : k = cacheKey topic limit
        · refine Or.inr ⟨by simp [save_keywords_to_cache, updateStore, hk2], ?_⟩
          intro hnil
          rw [hnil] at hke
          exact hke rfl
        · exact Or.inl (by simp [save_keywords_to_cache, updateStore, hk2])
  | none =>
    by_cases hke :
      (if avail then api_research outcome topic limit
        else fallback_research topic limit).isEmpty = true
    · rw [if_pos hke]
      exact Or.inl rfl
    · rw [if_neg hke]
      by_cases hk2 : k = cacheKey topic limit
      · refine Or.inr ⟨by simp [save_keywords_to_cache, updateStore, hk2], ?_⟩
        intro hnil
        rw [hnil] at hke
        exact hke rfl
      · exact Or.inl (by simp [save_keywords_to_cache, updateStore, hk2])

/-- C10: the pipeline writes only non-empty record lists to the cache (any
valid entry of the resulting store is either inherited from the input
store or has non-empty records), and a fresh cached entry whose record
list is empty does not short-circuit research: the result is the fresh
fetch, not the cached empty list. -/
theorem C10_no_empty_cache (now : Int) (st : Store) (outcome : RemoteOutcome)
    (api_available : Bool) (topic : List Char) (limit : Nat) :
    (∀ (k : List Char × Nat) (ts : Int) (t0 : List Char) (l0 : Nat)
        (kws : List KeywordData),
      (research_keywords now st outcome api_available topic limit).2 k =
          some (CacheFile.valid ts t0 l0 kws) →
        st k = some (CacheFile.valid ts t0 l0 kws) ∨ kws ≠ []) ∧
    (∀ (ts : Int) (t0 : List Char) (l0 : Nat),
      st (cacheKey topic limit) = some (CacheFile.valid ts t0 l0 []) →
      ¬ now - ts > CACHE_TTL_DAYS →
      (research_keywords now st outcome api_available topic limit).1 =
        (if api_available then api_research outcome topic limit
          else fallback_research topic limit)) := by
  constructor
  · intro k ts t0 l0 kws hk
    rcases research_store_sub now st outcome api_available topic limit k with
      h1 | ⟨h2, hne⟩
    · rw [h1] at hk
      rcases get_cached_store_sub now st topic limit k with hold | hnone
      · rw [hold] at hk
        exact Or.inl hk
      · rw [hnone] at hk
        exact absurd hk (by simp)
    · have := h2.symm.trans hk
      simp only [Option.some.injEq, CacheFile.valid.injEq] at this
      refine Or.inr ?_
      rw [← this.2.2.2]
      exact hne
  · intro ts t0 l0 hst hfresh
    have hget : (get_cached_keywords now st topic limit).1 = some [] := by
      simp only [get_cached_keywords, hst]
      rw [if_neg hfresh]
    rw [research_keywords]
    cases hc : (get_cached_keywords now st topic limit).1 with
    | none => rw [hc] at hget; exact absurd hget (by simp)
    | some cached =>
      cases cached with
      | nil =>
        by_cases hke :
          ((if api_available = true then api_research outcome topic limit
            else fallback_research topic limit).isEmpty = true)
        · rw [if_pos hke]
        · rw [if_neg hke]
      | cons kw kws2 =>
        rw [hc] at hget
        simp at hget

/-- Witness for C10: a fresh write of the non-empty heuristic result, and a
fresh cached empty entry being bypassed. -/
theorem C10_witness :
    ((fun _ => none : Store) (cacheKey "t".toList 1) =
        some (CacheFile.valid 0 "t".toList 1
          (fallback_research "t".toList 1)) ∨
      fallback_research "t".toList 1 ≠ []) ∧
    (research_keywords 0
        (fun k => if k = cacheKey "t".toList 1
          then some (CacheFile.valid 0 "t".toList 1 []) else none)
        RemoteOutcome.failure false "t".toList 1).1 =
      (if false then api_research RemoteOutcome.failure "t".toList 1
        else fallback_research "t".toList 1) :=
  ⟨(C10_no_empty_cache 0 (fun _ => none) RemoteOutcome.failure false
        "t".toList 1).1
      (cacheKey "t".toList 1) 0 "t".toList 1
      (fallback_research "t".toList 1) rfl,
   (C10_no_empty_cache 0
        (fun k => if k = cacheKey "t".toList 1
          then some (CacheFile.valid 0 "t".toList 1 []) else none)
        RemoteOutcome.failure false "t".toList 1).2 0 "t".toList 1
      (by simp) (by decide)⟩

/-- C1, counterexample: a remote response whose only task carries
status_code 400 parses to no records, and `_api_research` returns that
empty list — the pipeline result is empty for topic `keyword` and limit 5,
with nothing cached. -/
theorem C1_counterexample :
    parse_api_response
        { status_code := some 400, tasks := [{ status_code := some 400 }] }
        "keyword".toList 5 = [] ∧
    (research_keywords 0 (fun _ => none)
        (RemoteOutcome.success
          { status_code := some 400, tasks := [{ status_code := some 400 }] })
        true "keyword".toList 5).1 = [] := by
  exact ⟨rfl, rfl⟩

/-- C1, amended: the fetch operation returns the parse result as is — an
empty parse yields an empty fetch result, with no heuristic fallback; the
fallback runs exactly when the remote call raises, and then the result is
non-empty for every limit of at least 1. -/
theorem C1_empty_parse_returned (data : ApiResponse) (topic : List Char)
    (limit : Nat) (hlim : 1 ≤ limit) :
    api_research (RemoteOutcome.success data) topic limit =
      parse_api_response data topic limit ∧
    api_research RemoteOutcome.failure topic limit ≠ [] := by
  refine ⟨rfl, ?_⟩
  cases limit with
  | zero => omega
  | succ l =>
    simp [api_research, fallback_research, generate_variations, fallback_aux]

/-- Witness for C1 at the malformed 400 response, topic `keyword`,
limit 5. -/
theorem C1_witness :
    api_research
        (RemoteOutcome.success
          { status_code := some 400, tasks := [{ status_code := some 400 }] })
        "keyword".toList 5 =
      parse_api_response
        { status_code := some 400, tasks := [{ status_code := some 400 }] }
        "keyword".toList 5 ∧
    api_research RemoteOutcome.failure "keyword".toList 5 ≠ [] :=
  C1_empty_parse_returned
    { status_code := some 400, tasks := [{ status_code := some 400 }] }
    "keyword".toList 5 (by decide)

/-- C8, counterexample: on the non-Base64 input `" !"` (leading space) the
decode step returns the stripped string `"!"`, not the raw string
unchanged. -/
theorem C8_counterexample :
    decode_base64_credentials [' ', '!'] = some ['!'] ∧
    ([' ', '!'] : List Char) ≠ ['!'] := by
  exact ⟨by decide, by decide⟩

/-- C8, amended: after stripping surrounding whitespace, a successful
Base64+UTF-8 decode is returned (in particular the encoding of
`user:pass` decodes back to `user:pass`, which contains `:`), and a failed
decode returns the stripped input — not the raw input — while empty or
whitespace-only input yields `None`; the decode step is a total function,
so no exception escapes. -/
theorem C8_decode_behaviour :
    decode_base64_credentials "dXNlcjpwYXNz".toList =
      some "user:pass".toList ∧
    (':' : Char) ∈ "user:pass".toList ∧
    (∀ s : List Char, pyStrip s ≠ [] → b64utf8Decode (pyStrip s) = none →
      decode_base64_credentials s = some (pyStrip s)) ∧
    (∀ s d : List Char, pyStrip s ≠ [] →
      b64utf8Decode (pyStrip s) = some d → (':' : Char) ∈ d →
      decode_base64_credentials s = some d) := by
  refine ⟨by decide, by decide, ?_, ?_⟩
  · intro s h1 h2
    rw [decode_base64_credentials, if_neg h1]
    simp only [h2]
  · intro s d h1 h2 _
    rw [decode_base64_credentials, if_neg h1]
    simp only [h2]

/-- Witness for C8: a failed decode at a concrete non-Base64 credential
and a successful decode at the Base64 encoding of `user:pass` with
leading whitespace. -/
theorem C8_witness :
    decode_base64_credentials "notbase64!".toList =
      some (pyStrip "notbase64!".toList) ∧
    decode_base64_credentials " dXNlcjpwYXNz".toList =
      some "user:pass".toList :=
  ⟨C8_decode_behaviour.2.2.1 "notbase64!".toList (by decide) (by decide),
   C8_decode_behaviour.2.2.2 " dXNlcjpwYXNz".toList "user:pass".toList
     (by decide) (by decide) (by decide)⟩

end KeywordResearch
